import Mathlib

/-!
# Verification of the grua-booking-system booking flow and admin query layer

Shallow embedding, in Lean 4, of the pricing calculator, the booking
orchestrator (`handleBookingProcess` in src/src/pages/BookingForm.jsx), and the
admin query layer (src/src/hooks/useBookings.js) of the tow-truck booking
repository, together with theorems settling the specification's claims about
them.

Modelling conventions:
* money and distances are rationals (`ℚ`);
* the external collaborators (Stripe, the Supabase store, the admin
  notification channel) are modelled by explicit response values threaded
  through an environment record, one response per network call;
* fallible steps are `Except`/`Option` values; the orchestrator's single
  `try/catch` is modelled by an `Outcome` sum.
-/

namespace GruaBooking

/-- Rate-table entry returned by `getTowTruckPricing`: price per kilometre and
base price of a tow-truck category. -/
structure TowTruckPricing where
  perKm : ℚ
  basePrice : ℚ
deriving DecidableEq, Repr

/-- Embeds `calculateTotalCost` from src/src/pages/BookingForm.jsx (lines
108-112):

```js
const towTruckType = getTowTruckType(formData.vehicleSize);
const { perKm, basePrice } = getTowTruckPricing(towTruckType);
return basePrice + (distance * perKm * 2);
```

`getTowTruckType` and `getTowTruckPricing` live in
src/utils/towTruckSelection.js, which is not included under src/, so the two
lookups are taken as parameters; the spec constrains them only at the entry
size "Medium" ↦ category "Standard" ↦ (basePrice 50, perKm 2). -/
def calculateTotalCost (getTowTruckType : String → String)
    (getTowTruckPricing : String → TowTruckPricing)
    (vehicleSize : String) (distance : ℚ) : ℚ :=
  let towTruckType := getTowTruckType vehicleSize
  let pricing := getTowTruckPricing towTruckType
  pricing.basePrice + distance * pricing.perKm * 2

/-! ## Booking orchestrator (`handleBookingProcess`, src/src/pages/BookingForm.jsx) -/

/-- The form state collected by the multi-step form (the `formData` React
state of src/src/pages/BookingForm.jsx).  `pickupDateTime` is an epoch
timestamp in milliseconds. -/
structure FormData where
  serviceType : String
  userName : String
  phoneNumber : String
  vehicleBrand : String
  vehicleModel : String
  vehicleColor : String
  licensePlate : String
  vehicleSize : String
  pickupAddress : String
  dropOffAddress : String
  vehicleIssue : String
  additionalDetails : String
  wheelsStatus : String
  pickupDateTime : Int
  paymentMethod : String
deriving DecidableEq, Repr

/-- A row of the `services` collection as inserted by the orchestrator
(lines 151-159): the client-sent fields `user_id`, `dynamic_key`, `status`,
plus the server-issued `id` and `service_number` returned by
`.select('id, service_number').single()`. -/
structure ServiceRow where
  id : Nat
  service_number : Nat
  user_id : String
  dynamic_key : String
  status : String
deriving DecidableEq, Repr

/-- A row of the `bookings` collection as inserted by the orchestrator
(lines 163-176): the spread of `formData` plus distance, total cost,
tow-truck type, status, service linkage, idempotency key, creation time and
the test-mode tag. -/
structure BookingRow where
  form : FormData
  distance : ℚ
  totalCost : ℚ
  towTruckType : String
  status : String
  serviceId : Nat
  serviceNumber : Nat
  dynamicKey : String
  createdAt : Int
  isTestMode : Bool
deriving DecidableEq, Repr

/-- The durable state of the Booking Record Store that the submit flow can
touch: the `services` and `bookings` collections. -/
structure Store where
  services : List ServiceRow
  bookings : List BookingRow
deriving DecidableEq, Repr

/-- Responses of the external collaborators for one submission attempt,
together with the ambient session state.  Each field models the value the
corresponding awaited call would resolve with. -/
structure Env where
  /-- `session` from `useSupabaseAuth()`: `some uid` when authenticated. -/
  session : Option String
  /-- The `isTestMode` flag. -/
  isTestMode : Bool
  /-- Whether `stripe` and `elements` are both initialized. -/
  stripeReady : Bool
  /-- Result of `stripe.confirmPayment`: `some msg` models a `stripeError`. -/
  paymentResult : Option String
  /-- The `uuidv4()` value generated at line 150. -/
  dynamicKey : String
  /-- Response of the `services` insert: server-issued `(id, service_number)`
  on success, the store's error message on failure. -/
  serviceInsert : Except String (Nat × Nat)
  /-- Error of the `bookings` insert, if any. -/
  bookingInsertError : Option String
  /-- Whether the admin notification channel fails for this attempt. -/
  notifyChannelFails : Bool
  /-- `new Date().toISOString()` at line 172, as an epoch timestamp. -/
  now : Int
deriving Repr

/-- How many times each network call was made during one submission
attempt. -/
structure Calls where
  confirmPayment : Nat
  serviceInsert : Nat
  bookingInsert : Nat
  notify : Nat
deriving DecidableEq, Repr

/-- The user-visible outcome of one submission attempt. -/
inductive Outcome where
  /-- `validateForm()` returned false: the handler returns silently. -/
  | abortedInvalid : Outcome
  /-- `navigate('/login', ...)` at line 131: unauthenticated, not test mode. -/
  | redirectedToLogin : Outcome
  /-- The `catch` branch: a "Booking Failed" toast with the error message. -/
  | failed (message : String) : Outcome
  /-- The success toast and `navigate('/confirmation')`, carrying the
  service number reported to the user. -/
  | confirmed (serviceNumber : Nat) : Outcome
deriving DecidableEq, Repr

/-- Everything one submission attempt produces: the outcome, the store after
the attempt, the per-call counters and the log lines. -/
structure SubmitResult where
  outcome : Outcome
  store : Store
  calls : Calls
  logs : List String
deriving DecidableEq, Repr

/-- Embeds `validateForm` from src/src/pages/BookingForm.jsx (lines 119-122).
The source is a stub:

```js
const validateForm = () => {
  // Add form validation logic here
  return true;
};
```

so it accepts every form unconditionally. -/
def validateForm (_formData : FormData) : Bool :=
  true

/-- Modelled from the spec: `sendAdminNotification`
(src/utils/adminNotification.js) is imported by the orchestrator but not
included under src/.  The spec describes it as best-effort and
fire-and-forget — "failure here must not revert a successful booking — it is
logged, not retried synchronously", "`NotificationError` (logged only, never
blocks success)" — so it is modelled as catching any channel failure
internally, producing a log line, and returning normally. -/
def sendAdminNotification (channelFails : Bool) : List String :=
  if channelFails then ["Admin notification failed"] else []

/-- Embeds `handleBookingProcess` from src/src/pages/BookingForm.jsx (lines
124-202), acting on an initial store `st`.  The `distance`, `totalCost` and
`selectedTowTruck` arguments are the React state values the handler closes
over. -/
def handleBookingProcess (env : Env) (formData : FormData)
    (distance totalCost : ℚ) (selectedTowTruck : String)
    (st : Store) : SubmitResult :=
  if validateForm formData = false then
    ⟨.abortedInvalid, st, ⟨0, 0, 0, 0⟩, []⟩
  else if env.session = none ∧ env.isTestMode = false then
    ⟨.redirectedToLogin, st, ⟨0, 0, 0, 0⟩, []⟩
  else if env.stripeReady = false then
    ⟨.failed "Stripe has not been initialized", st, ⟨0, 0, 0, 0⟩, []⟩
  else
    match env.paymentResult with
    | some stripeErrorMessage =>
        ⟨.failed stripeErrorMessage, st, ⟨1, 0, 0, 0⟩, []⟩
    | none =>
        let dynamicKey := env.dynamicKey
        let user_id := match env.session with
          | some uid => uid
          | none => "test_user"
        let status := if env.isTestMode then "test_mode" else "pending"
        match env.serviceInsert with
        | .error serviceErrorMessage =>
            ⟨.failed serviceErrorMessage, st, ⟨1, 1, 0, 0⟩, []⟩
        | .ok (serviceId, serviceNumber) =>
            let serviceRow : ServiceRow :=
              ⟨serviceId, serviceNumber, user_id, dynamicKey, status⟩
            let st1 : Store := ⟨st.services ++ [serviceRow], st.bookings⟩
            let bookingRow : BookingRow :=
              ⟨formData, distance, totalCost, selectedTowTruck, status,
                serviceId, serviceNumber, dynamicKey, env.now, env.isTestMode⟩
            match env.bookingInsertError with
            | some bookingErrorMessage =>
                ⟨.failed bookingErrorMessage, st1, ⟨1, 1, 1, 0⟩, []⟩
            | none =>
                let st2 : Store :=
                  ⟨st1.services, st1.bookings ++ [bookingRow]⟩
                ⟨.confirmed serviceNumber, st2, ⟨1, 1, 1, 1⟩,
                  sendAdminNotification env.notifyChannelFails⟩

/-- Embeds the `pickupDateTime` rule of the yup `schema` in
src/src/components/booking/BookingForm.jsx (line 24):
`yup.date().nullable().required(...).min(new Date(), 'Pickup time must be in
the future')` — valid iff the value is present and not before the
validation-time clock `now`. -/
def schemaPickupDateTimeValid (now : Int) (pickupDateTime : Option Int) : Bool :=
  match pickupDateTime with
  | none => false
  | some t => now ≤ t

/-- A concrete submission clock, used when evaluating the flow on explicit
inputs (an epoch timestamp in milliseconds). -/
def sampleNow : Int := 1700000000000

/-- A concrete filled-in form, patterned on `generateTestData` of
src/src/pages/BookingForm.jsx, whose pickup date-time lies strictly before
`sampleNow`. -/
def sampleForm : FormData :=
  ⟨"Tow", "Test User", "1234567890", "Test Brand", "Test Model", "Red",
    "TEST123", "Medium", "123 Test St, Test City",
    "456 Example Ave, Sample Town", "Test Issue", "This is a test booking",
    "Wheels Turn", 1600000000000, "card"⟩

/-! ## Admin query layer (src/src/hooks/useBookings.js) -/

/-- The error surfaced by the admin layer's retry wrapper after exhausting
its attempts: the JS code throws
`new Error(`Failed after ${maxRetries} attempts: ${error.message}`)`, which
carries the attempt count and the last underlying error message. -/
structure StoreError where
  attempts : Nat
  lastMessage : String
deriving DecidableEq, Repr

/-- Embeds the `while` loop of `handleSupabaseError` (src/src/hooks/
useBookings.js lines 24-41).  `op attempt` is the result of the wrapped
store call on the given zero-based attempt; `retries` is the JS `retries`
counter and `fuel` is `maxRetries - retries`, which bounds the remaining
iterations (the fuel-0 fallback mirrors the loop condition failing, which
the throw at `retries === maxRetries` makes unreachable).  The first
component collects the backoff sleeps, in milliseconds, in order
(`setTimeout(..., 1000 * retries)`). -/
def retryLoop {α : Type} (op : Nat → Except String α) (maxRetries : Nat) :
    Nat → Nat → List Nat × Except StoreError α
  | _retries, 0 => ([], .error ⟨maxRetries, "loop exited"⟩)
  | retries, fuel + 1 =>
    match op retries with
    | .ok a => ([], .ok a)
    | .error msg =>
      if retries + 1 = maxRetries then ([], .error ⟨maxRetries, msg⟩)
      else
        let rest := retryLoop op maxRetries (retries + 1) fuel
        (1000 * (retries + 1) :: rest.1, rest.2)

/-- Embeds `handleSupabaseError` (src/src/hooks/useBookings.js lines 24-41):
up to `maxRetries = 3` attempts of the wrapped call, starting from
`retries = 0`.  Returns the backoff sleeps performed and the final result. -/
def handleSupabaseError {α : Type} (op : Nat → Except String α) :
    List Nat × Except StoreError α :=
  retryLoop op 3 0 3

/-- A row of the `users` collection as read by the admin layer. -/
structure UserRow where
  id : Nat
  email : String
deriving DecidableEq, Repr

/-- A plain `{ data, error }` reply of the hosted store to a select, insert
or update call (the shape destructured by the operations of
src/src/hooks/useBookings.js). -/
structure DbResponse (α : Type) where
  data : Option α
  error : Option String
deriving Repr

/-- A row of the `bookings` collection as selected by `getBookings`:
the projected columns plus the `created_at` ordering key (the joined
user/service summaries live in the external store and are not used by any
claim). -/
structure AdminBookingRow where
  id : Nat
  status : String
  payment_status : String
  total_cost : ℚ
  pickup_datetime : Int
  created_at : Nat
deriving DecidableEq, Repr

/-- The store's reply to the `getBookings` select, which also carries the
exact `count` requested by `{ count: 'exact' }`. -/
structure BookingsResponse where
  data : Option (List AdminBookingRow)
  error : Option String
  count : Nat
deriving Repr

/-- The value returned by `getBookings`:
`{ data, count, totalPages: Math.ceil(count / limit) }`. -/
structure BookingsPage where
  data : List AdminBookingRow
  count : Nat
  totalPages : Nat
deriving DecidableEq, Repr

/-- The `{ success: true }` value returned by the delete operations. -/
structure DeleteResult where
  success : Bool
deriving DecidableEq, Repr

/-- One attempt of the store call wrapped by `getUsers` (lines 43-51):
`select('*')` on `users`; on a store error the JS throws
`Failed to fetch users: ...`, otherwise it returns `data` as-is. -/
def getUsersCall (resp : Nat → DbResponse (List UserRow)) (attempt : Nat) :
    Except String (Option (List UserRow)) :=
  match (resp attempt).error with
  | some e => .error ("Failed to fetch users: " ++ e)
  | none => .ok (resp attempt).data

/-- Embeds `getUsers` (src/src/hooks/useBookings.js lines 43-51). -/
def getUsers (resp : Nat → DbResponse (List UserRow)) :
    List Nat × Except StoreError (Option (List UserRow)) :=
  handleSupabaseError (getUsersCall resp)

/-- One attempt of the store call wrapped by `getBookings` (lines 53-82):
on a store error the JS throws `Failed to fetch bookings: ...`; a null
`data` yields `{ data: [], count: 0, totalPages: 0 }`; otherwise the page is
returned with `totalPages = Math.ceil(count / limit)`, here the natural
ceiling division `(count + limit - 1) / limit` (the two agree for every
positive `limit`). -/
def getBookingsCall (resp : Nat → BookingsResponse) (limit : Nat)
    (attempt : Nat) : Except String BookingsPage :=
  match (resp attempt).error with
  | some e => .error ("Failed to fetch bookings: " ++ e)
  | none =>
    match (resp attempt).data with
    | none => .ok ⟨[], 0, 0⟩
    | some rows =>
        .ok ⟨rows, (resp attempt).count,
          ((resp attempt).count + limit - 1) / limit⟩

/-- Inserts a row into a list sorted by `created_at` descending, keeping it
sorted. -/
def insertDesc (x : AdminBookingRow) :
    List AdminBookingRow → List AdminBookingRow
  | [] => [x]
  | y :: ys =>
      if y.created_at ≤ x.created_at then x :: y :: ys
      else y :: insertDesc x ys

/-- Sorts a list of booking rows by `created_at` descending (insertion
sort), modelling `.order('created_at', { ascending: false })`. -/
def sortByCreatedAtDesc : List AdminBookingRow → List AdminBookingRow
  | [] => []
  | x :: xs => insertDesc x (sortByCreatedAtDesc xs)

/-- The hosted store's reply to the select issued by `getBookings`, modelled
from supabase's documented semantics: rows ordered by `created_at`
descending, the inclusive range `startIndex .. startIndex + limit - 1`
(i.e. `limit` rows after `startIndex`), an exact total count, and no
error. -/
def bookingsSelectResponse (store : List AdminBookingRow)
    (startIndex limit : Nat) : BookingsResponse :=
  ⟨some (((sortByCreatedAtDesc store).drop startIndex).take limit), none,
    store.length⟩

/-- Embeds `getBookings` (src/src/hooks/useBookings.js lines 53-82) against
an in-memory image of the `bookings` collection:
`startIndex = (page - 1) * limit`, `.range(startIndex, startIndex + limit - 1)`. -/
def getBookings (store : List AdminBookingRow) (page limit : Nat) :
    List Nat × Except StoreError BookingsPage :=
  handleSupabaseError
    (getBookingsCall (fun _ => bookingsSelectResponse store ((page - 1) * limit) limit)
      limit)

/-- One attempt of the store call wrapped by `createBooking` (lines 84-93):
`insert(...).select()`; on a store error the JS throws
`Failed to create booking: ...`, otherwise it returns `data[0]`. -/
def createBookingCall (resp : Nat → DbResponse (List BookingRow))
    (attempt : Nat) : Except String (Option BookingRow) :=
  match (resp attempt).error with
  | some e => .error ("Failed to create booking: " ++ e)
  | none =>
    match (resp attempt).data with
    | some rows => .ok rows.head?
    | none => .ok none

/-- Embeds `createBooking` (src/src/hooks/useBookings.js lines 84-93). -/
def createBooking (resp : Nat → DbResponse (List BookingRow)) :
    List Nat × Except StoreError (Option BookingRow) :=
  handleSupabaseError (createBookingCall resp)

/-- One attempt of the store call wrapped by `updateBooking` (lines 95-105):
`update(...).eq('id', id).select()`; on a store error the JS throws
`Failed to update booking: ...`, otherwise it returns `data[0]`. -/
def updateBookingCall (resp : Nat → DbResponse (List BookingRow))
    (attempt : Nat) : Except String (Option BookingRow) :=
  match (resp attempt).error with
  | some e => .error ("Failed to update booking: " ++ e)
  | none =>
    match (resp attempt).data with
    | some rows => .ok rows.head?
    | none => .ok none

/-- Embeds `updateBooking` (src/src/hooks/useBookings.js lines 95-105). -/
def updateBooking (resp : Nat → DbResponse (List BookingRow)) :
    List Nat × Except StoreError (Option BookingRow) :=
  handleSupabaseError (updateBookingCall resp)

/-- The hosted store's execution of `delete().eq('id', id)` on a collection
of rows (represented by their identifiers), modelled from supabase's
documented semantics: with no injected failure, every matching row is
removed and no error is reported — also when no row matches; an injected
failure leaves the rows unchanged and reports the error. -/
def supabaseDeleteById (rows : List Nat) (id : Nat)
    (failure : Option String) : List Nat × Option String :=
  match failure with
  | some e => (rows, some e)
  | none => (rows.filter (fun r => r != id), none)

/-- One attempt of the store call wrapped by `deleteBooking` (lines
107-116): on a store error the JS throws `Failed to delete booking: ...`,
otherwise it returns `{ success: true }`. -/
def deleteBookingCall (rows : List Nat) (id : Nat)
    (failure : Nat → Option String) (attempt : Nat) :
    Except String DeleteResult :=
  match (supabaseDeleteById rows id (failure attempt)).2 with
  | some e => .error ("Failed to delete booking: " ++ e)
  | none => .ok ⟨true⟩

/-- Embeds `deleteBooking` (src/src/hooks/useBookings.js lines 107-116). -/
def deleteBooking (rows : List Nat) (failure : Nat → Option String)
    (id : Nat) : List Nat × Except StoreError DeleteResult :=
  handleSupabaseError (deleteBookingCall rows id failure)

/-- One attempt of the store call wrapped by `deleteUser` (lines 118-127):
on a store error the JS throws `Failed to delete user: ...`, otherwise it
returns `{ success: true }`. -/
def deleteUserCall (rows : List Nat) (id : Nat)
    (failure : Nat → Option String) (attempt : Nat) :
    Except String DeleteResult :=
  match (supabaseDeleteById rows id (failure attempt)).2 with
  | some e => .error ("Failed to delete user: " ++ e)
  | none => .ok ⟨true⟩

/-- Embeds `deleteUser` (src/src/hooks/useBookings.js lines 118-127). -/
def deleteUser (rows : List Nat) (failure : Nat → Option String)
    (id : Nat) : List Nat × Except StoreError DeleteResult :=
  handleSupabaseError (deleteUserCall rows id failure)

end GruaBooking

open GruaBooking

/-- C1: for every vehicle size and route distance the computed total cost is
`basePrice + distance * perKm * 2` for the category resolved from the size,
and for size "Medium" (category "Standard", basePrice 50, perKm 2) at
distance 10 the total is 90. -/
theorem C1_calculateTotalCost_formula
    (gt : String → String) (gp : String → TowTruckPricing)
    (hgt : gt "Medium" = "Standard")
    (hgp : gp "Standard" = ⟨2, 50⟩) :
    (∀ size d, calculateTotalCost gt gp size d
        = (gp (gt size)).basePrice + d * (gp (gt size)).perKm * 2)
    ∧ calculateTotalCost gt gp "Medium" 10 = 90 := by
  constructor
  · intro size d
    rfl
  · show (gp (gt "Medium")).basePrice + 10 * (gp (gt "Medium")).perKm * 2 = 90
    rw [hgt, hgp]
    norm_num

/-- Witness for C1 at a concrete rate table realising the spec's documented
entry: size "Medium" resolves to "Standard" with basePrice 50, perKm 2, and
the total at distance 10 is 90. -/
theorem C1_calculateTotalCost_formula_witness :
    (fun (_ : String) => "Standard") "Medium" = "Standard"
    ∧ (fun (_ : String) => (⟨2, 50⟩ : TowTruckPricing)) "Standard" = ⟨2, 50⟩
    ∧ calculateTotalCost (fun _ => "Standard") (fun _ => ⟨2, 50⟩) "Medium" 10
        = 90 :=
  ⟨rfl, rfl,
    (C1_calculateTotalCost_formula (fun _ => "Standard") (fun _ => ⟨2, 50⟩)
      rfl rfl).2⟩

/-- C2: whenever the Payment Gateway rejects the payment confirmation, the
submit flow fails with the gateway's error and the store is unchanged — zero
Service rows and zero Booking rows are created. -/
theorem C2_payment_rejection_creates_no_rows
    (env : Env) (fd : FormData) (d tc : ℚ) (tt : String) (st : Store)
    (m : String)
    (hauth : env.session ≠ none ∨ env.isTestMode = true)
    (hstripe : env.stripeReady = true)
    (hpay : env.paymentResult = some m) :
    (handleBookingProcess env fd d tc tt st).outcome = .failed m
    ∧ (handleBookingProcess env fd d tc tt st).store = st := by
  obtain ⟨s, tm, sr, pr, dk, si, be, nf, now⟩ := env
  simp only at hauth hstripe hpay
  subst hstripe hpay
  rcases hauth with h | h
  · simp [handleBookingProcess, validateForm, h]
  · subst h
    simp [handleBookingProcess, validateForm]

/-- Witness for C2: a concrete authenticated submission whose payment is
rejected with message "card declined" fails with that message and leaves the
empty store empty. -/
theorem C2_payment_rejection_creates_no_rows_witness :
    (handleBookingProcess
        (Env.mk (some "user-1") false true (some "card declined") "key-1"
          (.ok (1, 100)) none false sampleNow)
        sampleForm 10 90 "Standard" ⟨[], []⟩).outcome
      = .failed "card declined"
    ∧ (handleBookingProcess
        (Env.mk (some "user-1") false true (some "card declined") "key-1"
          (.ok (1, 100)) none false sampleNow)
        sampleForm 10 90 "Standard" ⟨[], []⟩).store = ⟨[], []⟩ :=
  C2_payment_rejection_creates_no_rows _ sampleForm 10 90 "Standard" ⟨[], []⟩
    "card declined" (Or.inl (by simp)) rfl rfl

/-- C3: when the Service and Booking rows were successfully created, a
failure of the admin notification channel does not revert or block the
booking: the flow still reaches the Confirmed outcome (success reported with
the service number) and the notification failure is only logged. -/
theorem C3_notification_failure_does_not_block_success
    (env : Env) (fd : FormData) (d tc : ℚ) (tt : String) (st : Store)
    (i sn : Nat)
    (hauth : env.session ≠ none ∨ env.isTestMode = true)
    (hstripe : env.stripeReady = true)
    (hpay : env.paymentResult = none)
    (hsvc : env.serviceInsert = .ok (i, sn))
    (hbk : env.bookingInsertError = none)
    (hnf : env.notifyChannelFails = true) :
    (handleBookingProcess env fd d tc tt st).outcome = .confirmed sn
    ∧ (handleBookingProcess env fd d tc tt st).logs
        = ["Admin notification failed"] := by
  obtain ⟨s, tm, sr, pr, dk, si, be, nf, now⟩ := env
  simp only at hauth hstripe hpay hsvc hbk hnf
  subst hstripe hpay hsvc hbk hnf
  rcases hauth with h | h
  · simp [handleBookingProcess, validateForm, sendAdminNotification, h]
  · subst h
    simp [handleBookingProcess, validateForm, sendAdminNotification]

/-- Witness for C3: a concrete authenticated submission whose inserts succeed
but whose notification channel fails still confirms with service number 100,
logging the notification failure. -/
theorem C3_notification_failure_does_not_block_success_witness :
    (handleBookingProcess
        (Env.mk (some "user-1") false true none "key-1" (.ok (1, 100)) none
          true sampleNow)
        sampleForm 10 90 "Standard" ⟨[], []⟩).outcome = .confirmed 100
    ∧ (handleBookingProcess
        (Env.mk (some "user-1") false true none "key-1" (.ok (1, 100)) none
          true sampleNow)
        sampleForm 10 90 "Standard" ⟨[], []⟩).logs
        = ["Admin notification failed"] :=
  C3_notification_failure_does_not_block_success _ sampleForm 10 90 "Standard"
    ⟨[], []⟩ 1 100 (Or.inl (by simp)) rfl rfl rfl rfl rfl

/-- C4 counterexample: a submission with the test-mode flag set (and Stripe
initialized) still calls the Payment Gateway's confirmPayment — the claim
that test mode never calls confirmPayment is false on the code, which
invokes `stripe.confirmPayment` unconditionally at line 139. -/
theorem C4_test_mode_still_calls_confirmPayment :
    (Env.mk none true true none "key-1" (.ok (1, 100)) none false
        sampleNow).isTestMode = true
    ∧ (handleBookingProcess
        (Env.mk none true true none "key-1" (.ok (1, 100)) none false
          sampleNow)
        sampleForm 10 90 "Standard" ⟨[], []⟩).calls.confirmPayment = 1 := by
  constructor <;> rfl

/-- C4 (amended): with the test-mode flag set, authentication is bypassed
(the flow never redirects to login) but payment confirmation is not:
confirmPayment is called exactly once whenever Stripe is initialized; every
Service and Booking row the submission creates carries status `test_mode`. -/
theorem C4_test_mode_bypasses_auth_only
    (env : Env) (fd : FormData) (d tc : ℚ) (tt : String) (st : Store)
    (htm : env.isTestMode = true) :
    (handleBookingProcess env fd d tc tt st).outcome ≠ .redirectedToLogin
    ∧ (env.stripeReady = true →
        (handleBookingProcess env fd d tc tt st).calls.confirmPayment = 1)
    ∧ (∀ s ∈ (handleBookingProcess env fd d tc tt st).store.services,
        s ∈ st.services ∨ s.status = "test_mode")
    ∧ (∀ b ∈ (handleBookingProcess env fd d tc tt st).store.bookings,
        b ∈ st.bookings ∨ b.status = "test_mode") := by
  obtain ⟨s, tm, sr, pr, dk, si, be, nf, now⟩ := env
  simp only at htm
  subst htm
  rcases sr with _ | _ <;> rcases pr with _ | m <;>
    [skip; skip;
      rcases si with e | ⟨i, sn⟩ <;> [skip; rcases be with _ | m2] <;> skip;
      skip] <;>
    simp [handleBookingProcess, validateForm] <;>
    refine ⟨fun x hx => ?_, fun x hx => ?_⟩ <;>
    first
      | exact Or.inl hx
      | (rcases hx with hx | rfl
         · exact Or.inl hx
         · exact Or.inr rfl)

/-- Witness for C4 (amended): the amended property evaluated on a concrete
test-mode submission. -/
theorem C4_test_mode_bypasses_auth_only_witness :
    (handleBookingProcess
        (Env.mk none true true none "key-1" (.ok (1, 100)) none false
          sampleNow)
        sampleForm 10 90 "Standard" ⟨[], []⟩).outcome ≠ .redirectedToLogin
    ∧ ((Env.mk none true true none "key-1" (.ok (1, 100)) none false
          sampleNow).stripeReady = true →
        (handleBookingProcess
          (Env.mk none true true none "key-1" (.ok (1, 100)) none false
            sampleNow)
          sampleForm 10 90 "Standard" ⟨[], []⟩).calls.confirmPayment = 1)
    ∧ (∀ s ∈ (handleBookingProcess
          (Env.mk none true true none "key-1" (.ok (1, 100)) none false
            sampleNow)
          sampleForm 10 90 "Standard" ⟨[], []⟩).store.services,
        s ∈ (Store.mk [] []).services ∨ s.status = "test_mode")
    ∧ (∀ b ∈ (handleBookingProcess
          (Env.mk none true true none "key-1" (.ok (1, 100)) none false
            sampleNow)
          sampleForm 10 90 "Standard" ⟨[], []⟩).store.bookings,
        b ∈ (Store.mk [] []).bookings ∨ b.status = "test_mode") :=
  C4_test_mode_bypasses_auth_only
    (Env.mk none true true none "key-1" (.ok (1, 100)) none false sampleNow)
    sampleForm 10 90 "Standard" ⟨[], []⟩ rfl

/-- C5 (code bug): `validateForm` in src/src/pages/BookingForm.jsx is a stub
that accepts every form ("// Add form validation logic here"), so a
submission whose pickup date-time lies in the past is not stopped: on a
concrete past-pickup form the flow proceeds to call the Payment Gateway's
confirmPayment — a network call — instead of failing with a ValidationError
first.  The yup schema of src/src/components/booking/BookingForm.jsx, by
contrast, rejects that very pickup date-time. -/
theorem C5_past_pickup_not_validated :
    sampleForm.pickupDateTime < sampleNow
    ∧ validateForm sampleForm = true
    ∧ schemaPickupDateTimeValid sampleNow (some sampleForm.pickupDateTime)
        = false
    ∧ (handleBookingProcess
        (Env.mk (some "user-1") false true none "key-1" (.ok (1, 100)) none
          false sampleNow)
        sampleForm 10 90 "Standard" ⟨[], []⟩).calls.confirmPayment = 1 := by
  refine ⟨by norm_num [sampleForm, sampleNow], rfl, by decide, rfl⟩

/-- C8: the flow makes at most one Payment Gateway charge attempt per
submission, and every submission that reaches the Confirmed outcome creates
exactly one Service row and exactly one Booking row, the Booking row carrying
the Service row's identifier and service number. -/
theorem C8_one_service_one_booking_one_charge
    (env : Env) (fd : FormData) (d tc : ℚ) (tt : String) (st : Store) :
    (handleBookingProcess env fd d tc tt st).calls.confirmPayment ≤ 1
    ∧ ∀ sn, (handleBookingProcess env fd d tc tt st).outcome = .confirmed sn →
        ∃ srow brow,
          (handleBookingProcess env fd d tc tt st).store.services
              = st.services ++ [srow]
          ∧ (handleBookingProcess env fd d tc tt st).store.bookings
              = st.bookings ++ [brow]
          ∧ brow.serviceId = srow.id
          ∧ brow.serviceNumber = srow.service_number
          ∧ srow.service_number = sn := by
  obtain ⟨s, tm, sr, pr, dk, si, be, nf, now⟩ := env
  by_cases hgate : s = none ∧ tm = false
  · simp [handleBookingProcess, validateForm, hgate]
  · rcases sr with _ | _ <;> rcases pr with _ | m <;>
      [skip; skip;
        rcases si with e | ⟨i, sn⟩ <;> [skip; rcases be with _ | m2] <;> skip;
        skip] <;>
      simp [handleBookingProcess, validateForm, hgate] <;>
      intro sn2 hsn2 <;>
      exact ⟨_, _, rfl, rfl, rfl, rfl, hsn2⟩

/-- Witness for C8: the property evaluated on a concrete successful
submission, whose outcome is Confirmed with service number 100 and whose
store grows by exactly the linked Service and Booking rows. -/
theorem C8_one_service_one_booking_one_charge_witness :
    (handleBookingProcess
        (Env.mk (some "user-1") false true none "key-1" (.ok (1, 100)) none
          false sampleNow)
        sampleForm 10 90 "Standard" ⟨[], []⟩).outcome = .confirmed 100
    ∧ ∃ srow brow,
        (handleBookingProcess
            (Env.mk (some "user-1") false true none "key-1" (.ok (1, 100))
              none false sampleNow)
            sampleForm 10 90 "Standard" ⟨[], []⟩).store.services
            = (Store.mk [] []).services ++ [srow]
        ∧ (handleBookingProcess
            (Env.mk (some "user-1") false true none "key-1" (.ok (1, 100))
              none false sampleNow)
            sampleForm 10 90 "Standard" ⟨[], []⟩).store.bookings
            = (Store.mk [] []).bookings ++ [brow]
        ∧ brow.serviceId = srow.id
        ∧ brow.serviceNumber = srow.service_number
        ∧ srow.service_number = 100 :=
  ⟨rfl,
    (C8_one_service_one_booking_one_charge
      (Env.mk (some "user-1") false true none "key-1" (.ok (1, 100)) none
        false sampleNow)
      sampleForm 10 90 "Standard" ⟨[], []⟩).2 100 rfl⟩

/-- C9: within one submission attempt, whenever a Booking row is created, the
Service row created in the same attempt carries the same idempotency token
(the `dynamic_key` generated once per attempt) and the same status value —
`test_mode` when the test-mode flag is set, `pending` otherwise. -/
theorem C9_rows_share_key_and_status
    (env : Env) (fd : FormData) (d tc : ℚ) (tt : String) (st : Store)
    (b : BookingRow)
    (hb : (handleBookingProcess env fd d tc tt st).store.bookings
        = st.bookings ++ [b]) :
    ∃ srow : ServiceRow,
      (handleBookingProcess env fd d tc tt st).store.services
          = st.services ++ [srow]
      ∧ b.dynamicKey = srow.dynamic_key
      ∧ srow.dynamic_key = env.dynamicKey
      ∧ b.status = srow.status
      ∧ srow.status = (if env.isTestMode then "test_mode" else "pending") := by
  obtain ⟨s, tm, sr, pr, dk, si, be, nf, now⟩ := env
  by_cases hgate : s = none ∧ tm = false
  · simp [handleBookingProcess, validateForm, hgate] at hb
  · rcases sr with _ | _ <;> rcases pr with _ | m <;>
      [skip; skip;
        rcases si with e | ⟨i, sn⟩ <;> [skip; rcases be with _ | m2] <;> skip;
        skip] <;>
      simp [handleBookingProcess, validateForm, hgate] at hb ⊢ <;>
      subst hb <;>
      exact ⟨rfl, rfl⟩

/-- Witness for C9: the shared idempotency token and status evaluated on a
concrete test-mode submission that creates both rows. -/
theorem C9_rows_share_key_and_status_witness :
    ∃ srow : ServiceRow,
      (handleBookingProcess
          (Env.mk none true true none "key-1" (.ok (1, 100)) none false
            sampleNow)
          sampleForm 10 90 "Standard" ⟨[], []⟩).store.services
          = (Store.mk [] []).services ++ [srow]
      ∧ (BookingRow.mk sampleForm 10 90 "Standard" "test_mode" 1 100 "key-1"
          sampleNow true).dynamicKey = srow.dynamic_key
      ∧ srow.dynamic_key
          = (Env.mk none true true none "key-1" (.ok (1, 100)) none false
              sampleNow).dynamicKey
      ∧ (BookingRow.mk sampleForm 10 90 "Standard" "test_mode" 1 100 "key-1"
          sampleNow true).status = srow.status
      ∧ srow.status
          = (if (Env.mk none true true none "key-1" (.ok (1, 100)) none false
                sampleNow).isTestMode then "test_mode" else "pending") :=
  C9_rows_share_key_and_status
    (Env.mk none true true none "key-1" (.ok (1, 100)) none false sampleNow)
    sampleForm 10 90 "Standard" ⟨[], []⟩
    (BookingRow.mk sampleForm 10 90 "Standard" "test_mode" 1 100 "key-1"
      sampleNow true) rfl

/-- Membership in `insertDesc`: the inserted element plus the old ones. -/
theorem mem_insertDesc {x a : AdminBookingRow} :
    ∀ {l : List AdminBookingRow}, a ∈ insertDesc x l ↔ a = x ∨ a ∈ l := by
  intro l
  induction l with
  | nil => simp [insertDesc]
  | cons y ys ih =>
    by_cases h : y.created_at ≤ x.created_at
    · simp [insertDesc, h]
    · simp [insertDesc, h, ih]
      tauto

/-- `insertDesc` preserves the descending-by-`created_at` invariant. -/
theorem pairwise_insertDesc (x : AdminBookingRow) :
    ∀ {l : List AdminBookingRow},
      l.Pairwise (fun a b => b.created_at ≤ a.created_at) →
      (insertDesc x l).Pairwise (fun a b => b.created_at ≤ a.created_at) := by
  intro l
  induction l with
  | nil => simp [insertDesc]
  | cons y ys ih =>
    intro hl
    rw [List.pairwise_cons] at hl
    obtain ⟨hy, hys⟩ := hl
    by_cases h : y.created_at ≤ x.created_at
    · simp only [insertDesc, h, if_true]
      rw [List.pairwise_cons]
      refine ⟨?_, ?_⟩
      · intro b hb
        rw [List.mem_cons] at hb
        rcases hb with rfl | hb
        · exact h
        · exact le_trans (hy b hb) h
      · rw [List.pairwise_cons]
        exact ⟨hy, hys⟩
    · simp only [insertDesc, h, if_false]
      rw [List.pairwise_cons]
      refine ⟨?_, ih hys⟩
      intro b hb
      rw [mem_insertDesc] at hb
      rcases hb with rfl | hb
      · exact le_of_not_le h
      · exact hy b hb

/-- The result of `sortByCreatedAtDesc` is ordered by `created_at`
descending. -/
theorem pairwise_sortByCreatedAtDesc (l : List AdminBookingRow) :
    (sortByCreatedAtDesc l).Pairwise
      (fun a b => b.created_at ≤ a.created_at) := by
  induction l with
  | nil => simp [sortByCreatedAtDesc]
  | cons x xs ih => exact pairwise_insertDesc x ih

/-- C6: every admin-layer store operation is the retry wrapper
`handleSupabaseError` applied to its underlying store call, and the wrapper
returns the successful result when the call fails on the first two attempts
and succeeds on the third, with linear backoff sleeps of 1000 ms then
2000 ms; when all three attempts fail it surfaces a `StoreError` carrying
attempt count 3 and the last underlying error. -/
theorem C6_bounded_retry_policy {α : Type} (op : Nat → Except String α)
    (a : α) (m0 m1 m2 : String) :
    (op 0 = .error m0 → op 1 = .error m1 → op 2 = .ok a →
      handleSupabaseError op = ([1000, 2000], .ok a))
    ∧ (op 0 = .error m0 → op 1 = .error m1 → op 2 = .error m2 →
      handleSupabaseError op = ([1000, 2000], .error ⟨3, m2⟩))
    ∧ (∀ resp, getUsers resp = handleSupabaseError (getUsersCall resp))
    ∧ (∀ store page limit, getBookings store page limit
        = handleSupabaseError (getBookingsCall
            (fun _ => bookingsSelectResponse store ((page - 1) * limit) limit)
            limit))
    ∧ (∀ resp, createBooking resp
        = handleSupabaseError (createBookingCall resp))
    ∧ (∀ resp, updateBooking resp
        = handleSupabaseError (updateBookingCall resp))
    ∧ (∀ rows failResp id, deleteBooking rows failResp id
        = handleSupabaseError (deleteBookingCall rows id failResp))
    ∧ (∀ rows failResp id, deleteUser rows failResp id
        = handleSupabaseError (deleteUserCall rows id failResp)) := by
  refine ⟨?_, ?_, fun _ => rfl, fun _ _ _ => rfl, fun _ => rfl, fun _ => rfl,
    fun _ _ _ => rfl, fun _ _ _ => rfl⟩
  · intro h0 h1 h2
    simp [handleSupabaseError, retryLoop, h0, h1, h2]
  · intro h0 h1 h2
    simp [handleSupabaseError, retryLoop, h0, h1, h2]

/-- Witness for C6: a concrete call failing twice then succeeding returns the
successful result after sleeping 1000 ms and 2000 ms, and a concrete call
failing on all three attempts surfaces a `StoreError` with attempt count 3
and the last error message. -/
theorem C6_bounded_retry_policy_witness :
    handleSupabaseError
        (fun n => if n = 2 then (.ok 42 : Except String Nat)
          else .error "transient")
      = ([1000, 2000], .ok 42)
    ∧ handleSupabaseError
        (fun _ => (.error "down" : Except String Nat))
      = ([1000, 2000], .error ⟨3, "down"⟩) :=
  ⟨(C6_bounded_retry_policy
      (fun n => if n = 2 then (.ok 42 : Except String Nat)
        else .error "transient")
      42 "transient" "transient" "transient").1 rfl rfl rfl,
    (C6_bounded_retry_policy
      (fun _ => (.error "down" : Except String Nat))
      0 "down" "down" "down").2.1 rfl rfl rfl⟩

/-- C7: `getBookings` on an empty store at page 1, limit 10 returns
`{ data: [], count: 0, totalPages: 0 }` without failing; in general every
successful page has `totalPages` equal to the ceiling of `count / limit`
(characterised by `count ≤ totalPages * limit < count + limit`) and data
ordered by creation time descending. -/
theorem C7_getBookings_empty_and_pagination
    (store : List AdminBookingRow) (page limit : Nat) (hl : 0 < limit) :
    getBookings [] 1 10 = ([], .ok ⟨[], 0, 0⟩)
    ∧ ∀ pg, (getBookings store page limit).2 = .ok pg →
        pg.count ≤ pg.totalPages * limit
        ∧ pg.totalPages * limit < pg.count + limit
        ∧ pg.data.Pairwise (fun a b => b.created_at ≤ a.created_at) := by
  constructor
  · rfl
  · intro pg hpg
    have hv : (getBookings store page limit).2
        = .ok ⟨((sortByCreatedAtDesc store).drop ((page - 1) * limit)).take
              limit,
            store.length, (store.length + limit - 1) / limit⟩ := rfl
    rw [hv] at hpg
    obtain rfl := Except.ok.inj hpg
    have hdm := Nat.div_add_mod (store.length + limit - 1) limit
    have hm : (store.length + limit - 1) % limit < limit :=
      Nat.mod_lt _ hl
    rw [Nat.mul_comm] at hdm
    refine ⟨?_, ?_, ?_⟩
    · dsimp only
      omega
    · dsimp only
      omega
    · exact List.Pairwise.sublist
        ((List.take_sublist _ _).trans (List.drop_sublist _ _))
        (pairwise_sortByCreatedAtDesc store)

/-- Witness for C7: the pagination properties evaluated at limit 10 on a
concrete two-row store. -/
theorem C7_getBookings_empty_and_pagination_witness :
    (0 : Nat) < 10
    ∧ (getBookings [] 1 10 = ([], .ok ⟨[], 0, 0⟩)
      ∧ ∀ pg, (getBookings
            [⟨1, "pending", "unpaid", 50, 0, 100⟩,
              ⟨2, "paid", "paid", 90, 0, 200⟩] 1 10).2 = .ok pg →
          pg.count ≤ pg.totalPages * 10
          ∧ pg.totalPages * 10 < pg.count + 10
          ∧ pg.data.Pairwise (fun a b => b.created_at ≤ a.created_at)) :=
  ⟨by decide,
    C7_getBookings_empty_and_pagination
      [⟨1, "pending", "unpaid", 50, 0, 100⟩,
        ⟨2, "paid", "paid", 90, 0, 200⟩]
      1 10 (by decide)⟩

/-- C10: whenever the underlying store call reports no error, `deleteBooking`
and `deleteUser` return `{ success: true }` — and the store reports no error
even when no row matches the identifier, in which case the rows are
unchanged, so a delete of a non-existent row is reported as success. -/
theorem C10_delete_without_match_reports_success
    (rows urows : List Nat) (id uid : Nat)
    (bfail ufail : Nat → Option String)
    (hb : ∀ n, bfail n = none) (hu : ∀ n, ufail n = none) :
    (deleteBooking rows bfail id).2 = .ok ⟨true⟩
    ∧ (deleteUser urows ufail uid).2 = .ok ⟨true⟩
    ∧ (id ∉ rows → supabaseDeleteById rows id none = (rows, none)) := by
  refine ⟨?_, ?_, ?_⟩
  · have h0 := hb 0
    simp [deleteBooking, handleSupabaseError, retryLoop, deleteBookingCall,
      supabaseDeleteById, h0]
  · have h0 := hu 0
    simp [deleteUser, handleSupabaseError, retryLoop, deleteUserCall,
      supabaseDeleteById, h0]
  · intro hid
    simp only [supabaseDeleteById, Prod.mk.injEq, and_true]
    apply List.filter_eq_self.mpr
    intro a ha
    simp only [bne_iff_ne, ne_eq, decide_eq_true_eq]
    exact fun h => hid (h ▸ ha)

/-- Witness for C10: concrete deletes with a healthy store, the booking
delete targeting identifier 99 which no row carries, still report
`{ success: true }` and leave the rows unchanged. -/
theorem C10_delete_without_match_reports_success_witness :
    (∀ n : Nat, (fun _ : Nat => (none : Option String)) n = none)
    ∧ ((deleteBooking [1, 2, 3] (fun _ => none) 99).2 = .ok ⟨true⟩
      ∧ (deleteUser [4, 5] (fun _ => none) 77).2 = .ok ⟨true⟩
      ∧ (99 ∉ [1, 2, 3] →
          supabaseDeleteById [1, 2, 3] 99 none = ([1, 2, 3], none))) :=
  ⟨fun _ => rfl,
    C10_delete_without_match_reports_success [1, 2, 3] [4, 5] 99 77
      (fun _ => none) (fun _ => none) (fun _ => rfl) (fun _ => rfl)⟩
